import Mathlib

set_option maxHeartbeats 1000000

/-! # Shallow embedding of picostack's VM manager

This file embeds `src/picostack/vm_manager.py` in Lean.  Python ints are
`Nat` (all quantities involved are non-negative), Python lists are `List`,
raised exceptions become explicit error values, and the collaborating
modules that are not under `src/` (`picostack.vms.models`, `process_spawn`)
are modelled from the spec where the claims need them. -/

/-- Python `deque.rotate(-n)` applied to a deque holding `l`: the first
`n % length` elements move to the back (`collections.deque` rotation is
cyclic, so rotation amounts act modulo the length). -/
def rotateLeft (l : List Nat) (n : Nat) : List Nat :=
  l.drop (n % l.length) ++ l.take (n % l.length)

/-- The cursor update at the top of `VmManager.mapping_port_range`
(vm_manager.py lines 121-123): `__next_unmapped_port` is reset to
`first_port` when it is `None` or greater than `last_port`. -/
def nextCursor (first last : Nat) : Option Nat → Nat
  | none => first
  | some p => if last < p then first else p

/-- Embeds `VmManager.mapping_port_range` (vm_manager.py lines 116-128):
`deque(range(first_port, last_port))` rotated by
`-(next_unmapped_port - first_port + 1)`, so the scan starts at the
candidate after the last handed-out port.  The subtraction is `Nat`
subtraction; it agrees with the source for every reachable cursor (the
cursor is `None` initially and afterwards always holds the last returned
port, which lies in `[first, last)`). -/
def mapping_port_range (first last : Nat) (cursor : Option Nat) : List Nat :=
  rotateLeft (List.range' first (last - first)) (nextCursor first last cursor - first + 1)

/-- Embeds `VmManager.get_next_unmapped_port` (vm_manager.py lines 130-144):
scan the rotated range, skip ports in `already_mapped`
(`VmInstance.get_all_occupied_ports()` in the source), return the first
free port and record it as the new cursor (`__next_unmapped_port`).
`none` models the raised exception
(`Exception('Failed to find unmapped/unoccupied port.')`, the spec's
`PortExhaustionError`). -/
def get_next_unmapped_port (first last : Nat) (cursor : Option Nat)
    (already_mapped : List Nat) : Option (Nat × Option Nat) :=
  match (mapping_port_range first last cursor).find?
      (fun p => !(decide (p ∈ already_mapped))) with
  | some p => some (p, some p)
  | none => none

/-- Iterated allocator calls with the mapped set empty throughout: perform
`k` successive calls to `get_next_unmapped_port`, threading the cursor, and
collect the returned ports (stopping if a call fails). -/
def allocate_calls (first last : Nat) : Nat → Option Nat → List Nat
  | 0, _ => []
  | k + 1, cursor =>
    match get_next_unmapped_port first last cursor [] with
    | some (p, cursor') => p :: allocate_calls first last k cursor'
    | none => []

/-! ## CallBuilder (vm_manager.py lines 18-87) -/

/-- A value in the `CallBuilder.parameters` table: Python stores either a
plain string or a list of strings (the `type(value) == list` test in
`build_params`). -/
inductive ParamValue
  | scalar (s : String)
  | plist (l : List String)
deriving DecidableEq

/-- A call builder: executable plus parameter table.  The Python dict is
embedded as an association list; its list order stands for the (fixed,
deterministic for a fixed table) iteration order of the dict. -/
structure CallBuilder where
  executable : String
  parameters : List (String × ParamValue)
deriving DecidableEq

/-- The option list built by `CallBuilder.build_params` (lines 37-46): for
each table entry a list value contributes one `-key subvalue` flag per
element in list order, and a scalar value contributes the single flag
`-key value` (an empty value still contributes the flag `-key `). -/
def build_param_options (params : List (String × ParamValue)) : List String :=
  params.flatMap (fun kv =>
    match kv.2 with
    | ParamValue.plist l => l.map (fun subvalue => "-" ++ kv.1 ++ " " ++ subvalue)
    | ParamValue.scalar v => ["-" ++ kv.1 ++ " " ++ v])

/-- Embeds `CallBuilder.build_params` (line 46): `' '.join(options)`. -/
def build_params (params : List (String × ParamValue)) : String :=
  " ".intercalate (build_param_options params)

/-- The base parameter table set up by `CallBuilder.configure`
(lines 52-63), one entry per assignment, in source order. -/
def base_parameters : List (String × ParamValue) :=
  [("machine", ParamValue.scalar "accel=kvm"),
   ("hda", ParamValue.scalar "%(disk_path)s"),
   ("boot", ParamValue.scalar "c"),
   ("m", ParamValue.scalar "%(memory_size)s"),
   ("cpu", ParamValue.scalar "qemu64"),
   ("smp", ParamValue.scalar "%(num_of_cores)s,cores=%(num_of_cores)s,sockets=1,threads=1"),
   ("net", ParamValue.plist ["user", "nic,model=virtio"]),
   ("usbdevice", ParamValue.scalar "tablet"),
   ("no-shutdown", ParamValue.scalar "")]

/-- `UbuntuKvm` (lines 66-76): the base configuration, then
`parameters['net'].append('nic,model=virtio')` (in place, so the `net`
entry keeps its position) and the new key `balloon`. -/
def ubuntu_kvm : CallBuilder :=
  { executable := "/usr/bin/kvm",
    parameters :=
      [("machine", ParamValue.scalar "accel=kvm"),
       ("hda", ParamValue.scalar "%(disk_path)s"),
       ("boot", ParamValue.scalar "c"),
       ("m", ParamValue.scalar "%(memory_size)s"),
       ("cpu", ParamValue.scalar "qemu64"),
       ("smp", ParamValue.scalar "%(num_of_cores)s,cores=%(num_of_cores)s,sockets=1,threads=1"),
       ("net", ParamValue.plist ["user", "nic,model=virtio", "nic,model=virtio"]),
       ("usbdevice", ParamValue.scalar "tablet"),
       ("no-shutdown", ParamValue.scalar ""),
       ("balloon", ParamValue.scalar "virtio")] }

/-- `DebianKvm` (lines 79-87): same table as `UbuntuKvm`, different
executable string. -/
def debian_kvm : CallBuilder :=
  { ubuntu_kvm with executable := "/usr/bin/qemu-system-x86_64 -enable-kvm" }

/-! ## Python percent-formatting on the parameter strings

`CallBuilder.get_call` runs `self.build_params() % substitute_vars`
(line 50).  The builder tables only use the `%(name)s` mapping form, which
the following character-level scan embeds.  The scan runs on fuel equal to
the input length; every step consumes at least one character, so the fuel
never runs out on the initial call. -/

/-- Split a character list at the first `)` character, returning the part
before it and the part after it. -/
def splitAtRParen : List Char → Option (List Char × List Char)
  | [] => none
  | c :: rest =>
    if c = ')' then some ([], rest)
    else match splitAtRParen rest with
      | none => none
      | some (k, r) => some (c :: k, r)

/-- Mapping-key lookup for percent substitution.  A missing key raises
`KeyError` in Python; every placeholder in the builder tables is bound by
`get_kvm_call`, so the embedding totalises the lookup with `""`. -/
def lookup_var (vars : List (String × String)) (k : String) : String :=
  match vars.lookup k with
  | some v => v
  | none => ""

/-- Fuel-driven scan embedding `template % vars` for `%(name)s`
placeholders. -/
def pyFormatAux (vars : List (String × String)) : Nat → List Char → List Char
  | 0, l => l
  | _ + 1, [] => []
  | fuel + 1, '%' :: '(' :: rest =>
    match splitAtRParen rest with
    | some (k, 's' :: r) => (lookup_var vars (String.mk k)).data ++ pyFormatAux vars fuel r
    | _ => '%' :: pyFormatAux vars fuel ('(' :: rest)
  | fuel + 1, c :: rest => c :: pyFormatAux vars fuel rest

/-- Python `s % vars` restricted to the `%(name)s` form used by the
builder tables. -/
def pyFormat (s : String) (vars : List (String × String)) : String :=
  String.mk (pyFormatAux vars s.data.length s.data)

/-- Embeds `CallBuilder.get_call` (lines 48-50):
`self.executable + ' ' + self.build_params() % substitute_vars`. -/
def get_call (b : CallBuilder) (vars : List (String × String)) : String :=
  b.executable ++ " " ++ pyFormat (build_params b.parameters) vars

/-! ## Instances, configuration, and the Kvm manager (vm_manager.py lines 90-341) -/

/-- The instance lifecycle states.  The constants `VM_IN_CLONING`, ... are
imported from `picostack.vms.models`, which is not under `src/`; the state
set is modelled from the spec (section 4.4). -/
inductive VmState
  | VM_IN_CLONING
  | VM_IS_STOPPED
  | VM_IS_LAUNCHED
  | VM_IS_RUNNING
  | VM_HAS_FAILED
  | VM_IS_TERMINATING
  | VM_IS_TRASHED
deriving DecidableEq

/-- Modelled from the spec: the fixed guest-side port per forwarded
service (`VM_PORTS` in `picostack.vms.models`, not under `src/`; spec
glossary: "mapping a host TCP port to a fixed guest-side port for one
service (ssh/vnc/rdp)").  The concrete numbers are the standard service
ports; no claim depends on their values. -/
def VM_PORTS : String → Nat
  | "ssh" => 22
  | "vnc" => 5900
  | "rdp" => 3389
  | _ => 0

/-- A VM instance record (`VmInstance` in `picostack.vms.models`, not
under `src/`; attribute set modelled from the spec, section 3).
`mapped_ports` is the instance's service-to-host-port mapping. -/
structure Machine where
  name : String
  current_state : VmState
  has_ssh : Bool
  has_vnc : Bool
  has_rdp : Bool
  memory_size : Nat
  num_of_cores : Nat
  localhost_vnc_port : Nat
  disk_filename : String
  mapped_ports : List (String × Nat)
deriving DecidableEq

/-- Modelled from the spec: `machine.map_port(service, port)` records the
allocated host port for the service on the instance
(`Instance.record_port` in spec section 6). -/
def map_port (m : Machine) (service : String) (port : Nat) : Machine :=
  { m with mapped_ports := m.mapped_ports ++ [(service, port)] }

/-- The configuration values `vm_manager.py` reads through the config
provider (spec section 6). -/
structure Config where
  first_mapped_port : Nat
  last_mapped_port : Nat
  pidfiles_path : String
  log_path : String
  vm_disk_path : String
deriving DecidableEq

/-- Embeds `VmManager.get_disk_path` (lines 157-158, using
`location_of_disks`): `os.path.join(dir, machine.disk_filename)`. -/
def get_disk_path (cfg : Config) (m : Machine) : String :=
  cfg.vm_disk_path ++ "/" ++ m.disk_filename

/-- Embeds `VmManager.get_pid_file` (lines 160-162):
`os.path.join(pidfiles_folder, '%s.pid' % machine.name)`. -/
def get_pid_file (cfg : Config) (m : Machine) : String :=
  cfg.pidfiles_path ++ "/" ++ m.name ++ ".pid"

/-- Embeds `VmManager.get_report_file` (lines 164-166). -/
def get_report_file (cfg : Config) (m : Machine) : String :=
  cfg.log_path ++ "/" ++ m.name ++ ".log"

/-- The allocator view threaded through the embedding: the ports occupied
by instances in the store (`VmInstance.get_all_occupied_ports()`,
recomputed fresh per allocation) and the allocator cursor
(`VmManager.__next_unmapped_port`). -/
structure AllocState where
  occupied : List Nat
  cursor : Option Nat
deriving DecidableEq

/-- The exceptions the embedded operations can raise. -/
inductive VmError
  | AssertionError
  | PortExhaustionError
  | OSErrorRaised
deriving DecidableEq

/-- The list of services to map, built by `Kvm.get_kvm_call`
(lines 232-240): `ssh`, `vnc`, `rdp`, each guarded by its capability
flag, in that order. -/
def ports_to_map (m : Machine) : List String :=
  (if m.has_ssh then ["ssh"] else [])
    ++ (if m.has_vnc then ["vnc"] else [])
    ++ (if m.has_rdp then ["rdp"] else [])

/-- Result of the port-mapping loop of `Kvm.get_kvm_call`. -/
structure MapPortsResult where
  machine : Machine
  alloc : AllocState
  redirected_ports : String
  exhausted : Bool
deriving DecidableEq

/-- The port-mapping loop of `Kvm.get_kvm_call` (lines 241-245): for each
service allocate a fresh host port, record it on the instance
(`machine.map_port`, which makes it visible in the store's occupied set),
and append the `' -redir tcp:%d::%d '` clause.  `exhausted` is set when
the allocator raises; the machine and allocator fields then carry the
state reached so far, which the source does not roll back. -/
def map_ports_loop (cfg : Config) :
    List String → Machine → AllocState → String → MapPortsResult
  | [], m, st, red => ⟨m, st, red, false⟩
  | service :: rest, m, st, red =>
    match get_next_unmapped_port cfg.first_mapped_port cfg.last_mapped_port
        st.cursor st.occupied with
    | none => ⟨m, st, red, true⟩
    | some (p, cursor') =>
      map_ports_loop cfg rest (map_port m service p) ⟨p :: st.occupied, cursor'⟩
        (red ++ " -redir tcp:" ++ toString p ++ "::" ++ toString (VM_PORTS service) ++ " ")

/-- Result of `Kvm.get_kvm_call`: the updated instance and allocator view,
and the command string (`none` when port allocation raised; the exception
propagates out of `get_kvm_call`). -/
structure KvmCall where
  machine : Machine
  alloc : AllocState
  command : Option String
deriving DecidableEq

/-- Embeds `Kvm.get_kvm_call` (lines 229-254): map a port for each enabled
service, then return
`call_builder.get_call(vars) + ' '.join([redirected_ports, host_vnc])`
with `host_vnc = '-vnc localhost:%d' % machine.localhost_vnc_port`; the
`' '.join` of the two-element list is written out as
`redirected_ports ++ " " ++ host_vnc`. -/
def get_kvm_call (cfg : Config) (b : CallBuilder) (m : Machine) (st : AllocState) :
    KvmCall :=
  let r := map_ports_loop cfg (ports_to_map m) m st ""
  if r.exhausted then ⟨r.machine, r.alloc, none⟩
  else
    let host_vnc := "-vnc localhost:" ++ toString m.localhost_vnc_port
    let vars : List (String × String) :=
      [("disk_path", get_disk_path cfg m),
       ("memory_size", toString m.memory_size),
       ("num_of_cores", toString m.num_of_cores),
       ("redirected_ports", r.redirected_ports),
       ("host_vnc", host_vnc)]
    ⟨r.machine, r.alloc, some (get_call b vars ++ (r.redirected_ports ++ " " ++ host_vnc))⟩

/-- The observable outcome of `Kvm.run_machine`: the updated instance and
allocator view, the spawn event passed to `ProcessUtil.exec_process`
(command, report file, PID file; `none` when nothing was spawned), whether
a PID file was written (the spec's supervisor contract: `start` writes the
child's PID to the given path), and the exception if one propagated. -/
structure RunResult where
  machine : Machine
  alloc : AllocState
  spawned : Option (String × String × String)
  pid_file_written : Bool
  error : Option VmError
deriving DecidableEq

/-- Embeds `Kvm.run_machine` (lines 256-273).  `process_runs` is the
environment's answer to `ProcessUtil.process_runs(pid_filepath)`
(`process_spawn` is not under `src/`; modelled from the spec, section 4.3:
true iff the PID file references a live process).  The `assert` on the
accepting state raises `AssertionError`; port exhaustion inside
`get_kvm_call` propagates. -/
def run_machine (cfg : Config) (b : CallBuilder) (process_runs : String → Bool)
    (m : Machine) (st : AllocState) : RunResult :=
  if m.current_state ≠ VmState.VM_IS_LAUNCHED then
    ⟨m, st, none, false, some VmError.AssertionError⟩
  else
    let k := get_kvm_call cfg b m st
    match k.command with
    | none => ⟨k.machine, k.alloc, none, false, some VmError.PortExhaustionError⟩
    | some shell_command =>
      let report_filepath := get_report_file cfg m
      let pid_filepath := get_pid_file cfg m
      if process_runs pid_filepath then
        ⟨{ k.machine with current_state := VmState.VM_HAS_FAILED }, k.alloc,
          none, false, none⟩
      else
        ⟨{ k.machine with current_state := VmState.VM_IS_RUNNING }, k.alloc,
          some (shell_command, report_filepath, pid_filepath), true, none⟩

/-- The observable outcome of `Kvm.stop_machine`: the updated instance,
the PID-file paths on which `ProcessUtil.kill_process` was invoked (in
call order), the filesystem after the transition, and the exception if
one propagated. -/
structure StopResult where
  machine : Machine
  kill_calls : List String
  fs : List String
  error : Option VmError
deriving DecidableEq

/-- Embeds `Kvm.stop_machine` (lines 275-294).  `live` is the
environment's per-PID-file liveness; `ProcessUtil.kill_process` is
modelled from the spec, section 4.3: it signals the recorded PID when
live and returns whether a live process was found and signaled.  The
source guard is
`kill_process(proc_pidfile_path) and kill_process(cxt_pidfile_filepath)`:
Python `and` short-circuits, so the second kill call happens only when
the first returned `True`.  `fs` is the set of existing files
(`os.path.exists` / `os.unlink` of the `_proc` PID file in the success
branch). -/
def stop_machine (cfg : Config) (live : String → Bool) (fs : List String)
    (m : Machine) : StopResult :=
  if m.current_state ≠ VmState.VM_IS_TERMINATING then
    ⟨m, [], fs, some VmError.AssertionError⟩
  else
    let cxt_pidfile_filepath := get_pid_file cfg m
    let proc_pidfile_path := cxt_pidfile_filepath ++ "_proc"
    if live proc_pidfile_path then
      if live cxt_pidfile_filepath then
        ⟨{ m with current_state := VmState.VM_IS_STOPPED },
          [proc_pidfile_path, cxt_pidfile_filepath],
          if proc_pidfile_path ∈ fs then fs.erase proc_pidfile_path else fs, none⟩
      else
        ⟨{ m with current_state := VmState.VM_IS_STOPPED },
          [proc_pidfile_path, cxt_pidfile_filepath], fs, none⟩
    else
      ⟨{ m with current_state := VmState.VM_IS_STOPPED },
        [proc_pidfile_path], fs, none⟩

/-- The observable outcome of `Kvm.remove_machine`: the filesystem after
the transition, whether `machine.delete()` removed the record from the
store, and the exception if one propagated. -/
structure RemoveResult where
  fs : List String
  record_deleted : Bool
  error : Option VmError
deriving DecidableEq

/-- Embeds `Kvm.remove_machine` (lines 310-326).  `os.unlink(disk_file)`
on a missing file raises `OSError`; this codebase is Python 2 (implicit
relative import `from process_spawn import ProcessUtil` inside the
`picostack` package, old-style `%` formatting and explicit `object`
bases), where `except IOError` does not catch `OSError`, so the exception
propagates and neither the log cleanup nor `machine.delete()` runs.  With
the disk file present the unlink succeeds, the log file is removed when
present (guarded by `os.path.exists`), and the record is deleted. -/
def remove_machine (cfg : Config) (fs : List String) (m : Machine) : RemoveResult :=
  if m.current_state ≠ VmState.VM_IS_TRASHED then
    ⟨fs, false, some VmError.AssertionError⟩
  else
    let disk_file := get_disk_path cfg m
    if disk_file ∈ fs then
      let fs1 := fs.erase disk_file
      let report_filepath := get_report_file cfg m
      ⟨if report_filepath ∈ fs1 then fs1.erase report_filepath else fs1, true, none⟩
    else
      ⟨fs, false, some VmError.OSErrorRaised⟩

/-- One pass of the `for` loop of `VmManager.start_machines`
(lines 189-191) over the queried instances: `run_machine` per instance;
the loop body has no exception handler, so a raising transition aborts
the loop and the remaining instances are returned untouched, with the
error surfaced. -/
def start_machines_go (cfg : Config) (b : CallBuilder) (process_runs : String → Bool) :
    List Machine → AllocState → List Machine × AllocState × Option VmError
  | [], st => ([], st, none)
  | m :: rest, st =>
    let r := run_machine cfg b process_runs m st
    match r.error with
    | some e => (r.machine :: rest, r.alloc, some e)
    | none =>
      (r.machine :: (start_machines_go cfg b process_runs rest r.alloc).1,
       (start_machines_go cfg b process_runs rest r.alloc).2.1,
       (start_machines_go cfg b process_runs rest r.alloc).2.2)

/-- Embeds `VmManager.start_machines` (lines 184-191): query the store
for the instances in state `VM_IS_LAUNCHED` and run each in store order. -/
def start_machines (cfg : Config) (b : CallBuilder) (process_runs : String → Bool)
    (instances : List Machine) (st : AllocState) :
    List Machine × AllocState × Option VmError :=
  start_machines_go cfg b process_runs
    (instances.filter (fun m => decide (m.current_state = VmState.VM_IS_LAUNCHED))) st

/-! ## Witness fixtures -/

/-- A concrete configuration for the witnesses below. -/
def cfgW : Config :=
  { first_mapped_port := 6000, last_mapped_port := 6002,
    pidfiles_path := "/var/pids", log_path := "/var/logs",
    vm_disk_path := "/var/disks" }

/-- A configuration whose mapping range holds a single port. -/
def cfgTight : Config := { cfgW with last_mapped_port := 6001 }

/-- A Launched instance with ssh forwarding enabled. -/
def mW : Machine :=
  { name := "vm1", current_state := VmState.VM_IS_LAUNCHED,
    has_ssh := true, has_vnc := false, has_rdp := false,
    memory_size := 512, num_of_cores := 1, localhost_vnc_port := 5,
    disk_filename := "vm1.img", mapped_ports := [] }

/-- A Launched instance with no forwarded services enabled. -/
def mPlain : Machine := { mW with name := "vm0", has_ssh := false }

/-- A Terminating instance. -/
def mTermW : Machine :=
  { mW with name := "vm2", current_state := VmState.VM_IS_TERMINATING }

/-- A Trashed instance. -/
def mTrashW : Machine :=
  { mW with
    name := "vm3"
    current_state := VmState.VM_IS_TRASHED
    disk_filename := "vm3.img" }

/-- The empty allocator view. -/
def stW : AllocState := ⟨[], none⟩

/-! ## Helper lemmas and claim theorems -/

lemma mem_rotateLeft {l : List Nat} {n a : Nat} : a ∈ rotateLeft l n ↔ a ∈ l := by
  simp only [rotateLeft, List.mem_append]
  constructor
  · rintro (h | h)
    · exact List.mem_of_mem_drop h
    · exact List.mem_of_mem_take h
  · intro h
    rw [← List.take_append_drop (n % l.length) l, List.mem_append] at h
    tauto

/-- C1: for a configured half-open range `[first, last)` with
`last > first` and any set of already-mapped ports: a returned port lies in
the range and is unmapped; if some port of the range is unmapped the call
succeeds; if every port of the range is mapped the call fails (the source
raises, the spec's `PortExhaustionError`, embedded as `none`). -/
theorem allocator_returns_unmapped_in_range_or_exhausts
    (first last : Nat) (cursor : Option Nat) (mapped : List Nat)
    (hrange : first < last) :
    (∀ p c, get_next_unmapped_port first last cursor mapped = some (p, c) →
      first ≤ p ∧ p < last ∧ p ∉ mapped)
    ∧ ((∃ p, first ≤ p ∧ p < last ∧ p ∉ mapped) →
        (get_next_unmapped_port first last cursor mapped).isSome = true)
    ∧ ((∀ p, first ≤ p → p < last → p ∈ mapped) →
        get_next_unmapped_port first last cursor mapped = none) := by
  have hmem : ∀ q : Nat, q ∈ mapping_port_range first last cursor ↔
      (first ≤ q ∧ q < last) := by
    intro q
    rw [mapping_port_range, mem_rotateLeft, List.mem_range'_1]
    omega
  refine ⟨?_, ?_, ?_⟩
  · intro p c h
    rw [get_next_unmapped_port] at h
    cases hq : (mapping_port_range first last cursor).find?
        (fun x => !(decide (x ∈ mapped))) with
    | none => rw [hq] at h; exact absurd h (by simp)
    | some q =>
      rw [hq] at h
      have hqmem := List.mem_of_find?_eq_some hq
      have hqpred := List.find?_some hq
      have hq1 := (hmem q).mp hqmem
      have hqnotmem : q ∉ mapped := by
        intro hcon
        simp [hcon] at hqpred
      have hpq : p = q ∧ c = some q := by
        simp only [Option.some.injEq, Prod.mk.injEq] at h
        exact ⟨h.1.symm, h.2.symm⟩
      rw [hpq.1]
      exact ⟨hq1.1, hq1.2, hqnotmem⟩
  · rintro ⟨p, h1, h2, h3⟩
    rw [get_next_unmapped_port]
    cases hq : (mapping_port_range first last cursor).find?
        (fun x => !(decide (x ∈ mapped))) with
    | none =>
      exfalso
      have := List.find?_eq_none.mp hq p ((hmem p).mpr ⟨h1, h2⟩)
      simp [h3] at this
    | some q => simp
  · intro hall
    rw [get_next_unmapped_port]
    have hq : (mapping_port_range first last cursor).find?
        (fun x => !(decide (x ∈ mapped))) = none := by
      rw [List.find?_eq_none]
      intro q hqmem
      have hq1 := (hmem q).mp hqmem
      have hmap := hall q hq1.1 hq1.2
      simp [hmap]
    rw [hq]

/-- Witness for C1 at a concrete range and mapped set. -/
theorem allocator_returns_unmapped_in_range_or_exhausts_witness :
    (6000 ≤ 6001 ∧ 6001 < 6002 ∧ 6001 ∉ [6000]) ∧
      get_next_unmapped_port 6000 6002 none [6000, 6001] = none := by
  constructor
  · exact (allocator_returns_unmapped_in_range_or_exhausts 6000 6002 none [6000]
      (by decide)).1 6001 (some 6001) (by decide)
  · exact (allocator_returns_unmapped_in_range_or_exhausts 6000 6002 none [6000, 6001]
      (by decide)).2.2 (by intro p h1 h2; interval_cases p <;> decide)

lemma find?_not_contains_nil (l : List Nat) :
    l.find? (fun p => !(decide (p ∈ ([] : List Nat)))) = l.head? := by
  cases l <;> simp [List.find?]

lemma head?_rotateLeft (l : List Nat) (n : Nat) (h : l ≠ []) :
    (rotateLeft l n).head? = l[n % l.length]? := by
  have hlen : n % l.length < l.length := Nat.mod_lt _ (List.length_pos.mpr h)
  rw [rotateLeft, List.head?_eq_getElem?, List.getElem?_append_left
    (by rw [List.length_drop]; omega), List.getElem?_drop, Nat.add_zero]

/-- One allocator call with an empty mapped set, starting from the cursor
`first + s` with `s < last - first`, returns the next port in the rotated
order, namely `first + (s + 1) % (last - first)`. -/
lemma get_next_step (first last s : Nat) (hrange : first < last)
    (hs : s < last - first) :
    get_next_unmapped_port first last (some (first + s)) [] =
      some (first + (s + 1) % (last - first),
            some (first + (s + 1) % (last - first))) := by
  have hN : 0 < last - first := by omega
  have hmpr : mapping_port_range first last (some (first + s)) =
      rotateLeft (List.range' first (last - first)) (s + 1) := by
    rw [mapping_port_range, nextCursor]
    have hnl : ¬ last < first + s := by omega
    rw [if_neg hnl]
    congr 1
    omega
  have hne : List.range' first (last - first) ≠ [] := by
    intro hcon
    have := congrArg List.length hcon
    rw [List.length_range'] at this
    simp at this
    omega
  rw [get_next_unmapped_port, find?_not_contains_nil, hmpr,
    head?_rotateLeft _ _ hne, List.length_range']
  have hlt : (s + 1) % (last - first) < last - first := Nat.mod_lt _ hN
  rw [List.getElem?_eq_getElem (by rw [List.length_range']; exact hlt),
    List.getElem_range']
  simp [Nat.one_mul]

lemma allocate_calls_from (first last : Nat) (hrange : first < last) :
    ∀ k s, s < last - first →
      allocate_calls first last k (some (first + s)) =
        (List.range k).map (fun i => first + (s + 1 + i) % (last - first)) := by
  intro k
  induction k with
  | zero => intro s hs; simp [allocate_calls]
  | succ k ih =>
    intro s hs
    have hN : 0 < last - first := by omega
    simp only [allocate_calls, get_next_step first last s hrange hs]
    have hs' : (s + 1) % (last - first) < last - first := Nat.mod_lt _ hN
    rw [ih _ hs', List.range_succ_eq_map, List.map_cons, List.map_map]
    congr 1
    apply List.map_congr_left
    intro i _
    simp only [Function.comp_apply]
    congr 1
    rw [Nat.add_assoc ((s + 1) % (last - first)) 1 i, Nat.mod_add_mod]
    congr 1
    omega

lemma allocate_calls_none (first last k : Nat) (hrange : first < last) :
    allocate_calls first last k none = allocate_calls first last k (some first) := by
  cases k with
  | zero => rfl
  | succ k =>
    rw [allocate_calls, allocate_calls]
    have hcur : get_next_unmapped_port first last none [] =
        get_next_unmapped_port first last (some first) [] := by
      rw [get_next_unmapped_port, get_next_unmapped_port]
      have : mapping_port_range first last none =
          mapping_port_range first last (some first) := by
        rw [mapping_port_range, mapping_port_range, nextCursor, nextCursor,
          if_neg (by omega : ¬ last < first)]
      rw [this]
    rw [hcur]

/-- C2: the allocator rotates: from cursor `first + s` the next call with an
empty mapped set returns `first + (s + 1) % N` (the candidate after the last
handed-out port, wrapping), and `N` successive calls on a range of size
`N = last - first` with the mapped set empty throughout return `N`
pairwise-distinct ports. -/
theorem allocator_rotation_yields_distinct_ports
    (first last : Nat) (hrange : first < last) :
    (∀ s, s < last - first →
      get_next_unmapped_port first last (some (first + s)) [] =
        some (first + (s + 1) % (last - first),
              some (first + (s + 1) % (last - first))))
    ∧ (allocate_calls first last (last - first) none).length = last - first
    ∧ (allocate_calls first last (last - first) none).Nodup := by
  have hN : 0 < last - first := by omega
  have hform : allocate_calls first last (last - first) none =
      (List.range (last - first)).map
        (fun i => first + (0 + 1 + i) % (last - first)) := by
    rw [allocate_calls_none first last _ hrange]
    exact allocate_calls_from first last hrange (last - first) 0 hN
  refine ⟨fun s hs => get_next_step first last s hrange hs, ?_, ?_⟩
  · rw [hform, List.length_map, List.length_range]
  · rw [hform]
    refine List.Nodup.map_on ?_ (List.nodup_range _)
    intro i hi j hj hfeq
    rw [List.mem_range] at hi hj
    have heq : (0 + 1 + i) % (last - first) = (0 + 1 + j) % (last - first) := by
      omega
    simp only [Nat.zero_add] at heq
    by_cases h1 : 1 + i = last - first
    · by_cases h2 : 1 + j = last - first
      · omega
      · rw [h1, Nat.mod_self, Nat.mod_eq_of_lt (by omega)] at heq
        omega
    · by_cases h2 : 1 + j = last - first
      · rw [h2, Nat.mod_self, Nat.mod_eq_of_lt (by omega)] at heq
        omega
      · rw [Nat.mod_eq_of_lt (by omega), Nat.mod_eq_of_lt (by omega)] at heq
        omega

/-- Witness for C2 at the concrete range `[6000, 6003)`. -/
theorem allocator_rotation_yields_distinct_ports_witness :
    (allocate_calls 6000 6003 3 none).length = 3 ∧
      (allocate_calls 6000 6003 3 none).Nodup :=
  ⟨(allocator_rotation_yields_distinct_ports 6000 6003 (by decide)).2.1,
   (allocator_rotation_yields_distinct_ports 6000 6003 (by decide)).2.2⟩

lemma build_param_options_append (p q : List (String × ParamValue)) :
    build_param_options (p ++ q) = build_param_options p ++ build_param_options q := by
  simp [build_param_options]

/-- C8: in the command string produced by `CallBuilder.build_params`, a
list-valued parameter expands to one repeated flag per list element in
list order, a scalar parameter expands to exactly one flag, an
empty-string value still emits the flag (with no argument), and the
output is a pure function of the parameter table: identical tables yield
a byte-identical string. -/
theorem build_params_expansion_and_purity
    (before after : List (String × ParamValue)) (key : String)
    (l : List String) (v : String) :
    (build_param_options (before ++ (key, ParamValue.plist l) :: after) =
      build_param_options before
        ++ l.map (fun subvalue => "-" ++ key ++ " " ++ subvalue)
        ++ build_param_options after)
    ∧ (build_param_options (before ++ (key, ParamValue.scalar v) :: after) =
      build_param_options before ++ ["-" ++ key ++ " " ++ v]
        ++ build_param_options after)
    ∧ (build_param_options (before ++ (key, ParamValue.scalar "") :: after) =
      build_param_options before ++ ["-" ++ key ++ " "]
        ++ build_param_options after)
    ∧ (∀ p q : List (String × ParamValue), p = q → build_params p = build_params q) := by
  refine ⟨?_, ?_, ?_, ?_⟩
  · rw [build_param_options_append]
    rw [show build_param_options ((key, ParamValue.plist l) :: after) =
        l.map (fun subvalue => "-" ++ key ++ " " ++ subvalue) ++ build_param_options after
      from by simp [build_param_options]]
    rw [List.append_assoc]
  · rw [build_param_options_append]
    rw [show build_param_options ((key, ParamValue.scalar v) :: after) =
        ["-" ++ key ++ " " ++ v] ++ build_param_options after
      from by simp [build_param_options]]
    rw [List.append_assoc]
  · rw [build_param_options_append]
    rw [show build_param_options ((key, ParamValue.scalar "") :: after) =
        ["-" ++ key ++ " "] ++ build_param_options after
      from by simp [build_param_options]]
    rw [List.append_assoc]
  · rintro p q rfl
    rfl

/-- Witness for C8 on the concrete `net` entry of the base table and a
concrete purity instance. -/
theorem build_params_expansion_and_purity_witness :
    (build_param_options ([] ++ ("net", ParamValue.plist ["user", "nic,model=virtio"]) :: []) =
      build_param_options []
        ++ ["user", "nic,model=virtio"].map (fun subvalue => "-" ++ "net" ++ " " ++ subvalue)
        ++ build_param_options [])
    ∧ build_params base_parameters = build_params base_parameters :=
  ⟨(build_params_expansion_and_purity [] [] "net" ["user", "nic,model=virtio"] "").1,
   (build_params_expansion_and_purity [] [] "net" [] "").2.2.2
     base_parameters base_parameters rfl⟩

lemma ne_append_proc (s : String) : s ++ "_proc" ≠ s := by
  intro h
  have hlen := congrArg String.length h
  rw [String.length_append] at hlen
  have h5 : ("_proc" : String).length = 5 := rfl
  omega

/-- C6: for every instance in state Terminating, `stop_machine` ends with
the instance in state Stopped, whatever the liveness of the two PID
files; a missing or already-dead process is logged, not fatal (no
exception propagates). -/
theorem stop_machine_always_stops (cfg : Config) (live : String → Bool)
    (fs : List String) (m : Machine)
    (hterm : m.current_state = VmState.VM_IS_TERMINATING) :
    (stop_machine cfg live fs m).machine.current_state = VmState.VM_IS_STOPPED
    ∧ (stop_machine cfg live fs m).error = none := by
  rw [stop_machine, if_neg (by simp [hterm])]
  by_cases h1 : live (get_pid_file cfg m ++ "_proc") <;>
    by_cases h2 : live (get_pid_file cfg m) <;>
    simp [h1, h2]

/-- Witness for C6 with both PID files dead. -/
theorem stop_machine_always_stops_witness :
    (stop_machine cfgW (fun _ => false) [] mTermW).machine.current_state =
        VmState.VM_IS_STOPPED
    ∧ (stop_machine cfgW (fun _ => false) [] mTermW).error = none :=
  stop_machine_always_stops cfgW (fun _ => false) [] mTermW rfl

/-- C4 (amended): for every instance in state Terminating, `stop_machine`
always invokes `kill_process` on the secondary child's `_proc` PID file,
but invokes it on the hypervisor context's main PID file only when the
secondary child was live and signaled (the `and` between the two
`kill_process` calls short-circuits); a live context process therefore
receives no kill when the secondary child is already dead. -/
theorem stop_machine_kill_calls_short_circuit (cfg : Config) (live : String → Bool)
    (fs : List String) (m : Machine)
    (hterm : m.current_state = VmState.VM_IS_TERMINATING) :
    (get_pid_file cfg m ++ "_proc") ∈ (stop_machine cfg live fs m).kill_calls
    ∧ (get_pid_file cfg m ∈ (stop_machine cfg live fs m).kill_calls ↔
        live (get_pid_file cfg m ++ "_proc") = true) := by
  rw [stop_machine, if_neg (by simp [hterm])]
  by_cases h1 : live (get_pid_file cfg m ++ "_proc") <;>
    by_cases h2 : live (get_pid_file cfg m) <;>
    simp [h1, h2, Ne.symm (ne_append_proc (get_pid_file cfg m))]

/-- Witness for C4's amended statement with both processes live. -/
theorem stop_machine_kill_calls_short_circuit_witness :
    (get_pid_file cfgW mTermW ++ "_proc") ∈
        (stop_machine cfgW (fun _ => true) [] mTermW).kill_calls
    ∧ (get_pid_file cfgW mTermW ∈ (stop_machine cfgW (fun _ => true) [] mTermW).kill_calls ↔
        (fun _ : String => true) (get_pid_file cfgW mTermW ++ "_proc") = true) :=
  stop_machine_kill_calls_short_circuit cfgW (fun _ => true) [] mTermW rfl

/-- C4 counterexample: a Terminating instance whose secondary `_proc`
child is dead while the hypervisor context process is live.  The context
PID file references a live process, yet `kill_process` is never invoked
on it (the short-circuited `and` skips it), refuting the claim that each
of the two that is live receives a kill regardless of the other. -/
theorem stop_machine_skips_live_context_kill_cex :
    mTermW.current_state = VmState.VM_IS_TERMINATING
    ∧ (fun s => decide (s = "/var/pids/vm2.pid")) (get_pid_file cfgW mTermW) = true
    ∧ get_pid_file cfgW mTermW ∉
        (stop_machine cfgW (fun s => decide (s = "/var/pids/vm2.pid")) [] mTermW).kill_calls := by
  refine ⟨rfl, by decide, ?_⟩
  decide

/-- C10: the launch command built by `get_kvm_call` always ends with the
`-vnc localhost:<display>` clause for the instance's VNC display index,
whatever the `has_vnc` capability flag; only the per-service `-redir`
clauses are conditioned on the flags (the `vnc` service is in the
port-mapping list iff `has_vnc`). -/
theorem kvm_call_ends_with_vnc_clause (cfg : Config) (b : CallBuilder)
    (m : Machine) (st : AllocState) (cmd : String)
    (hcmd : (get_kvm_call cfg b m st).command = some cmd) :
    (∃ p, cmd = p ++ ("-vnc localhost:" ++ toString m.localhost_vnc_port))
    ∧ ("vnc" ∈ ports_to_map m ↔ m.has_vnc = true) := by
  constructor
  · simp only [get_kvm_call] at hcmd
    by_cases hex : (map_ports_loop cfg (ports_to_map m) m st "").exhausted = true
    · rw [if_pos hex] at hcmd
      exact absurd hcmd (by simp)
    · rw [if_neg hex] at hcmd
      simp only [Option.some.injEq] at hcmd
      refine ⟨get_call b
        [("disk_path", get_disk_path cfg m), ("memory_size", toString m.memory_size),
         ("num_of_cores", toString m.num_of_cores),
         ("redirected_ports", (map_ports_loop cfg (ports_to_map m) m st "").redirected_ports),
         ("host_vnc", "-vnc localhost:" ++ toString m.localhost_vnc_port)] ++
        ((map_ports_loop cfg (ports_to_map m) m st "").redirected_ports ++ " "), ?_⟩
      rw [← hcmd]
      exact (String.append_assoc _ _ _).symm
  · rw [ports_to_map]
    cases hssh : m.has_ssh <;> cases hvnc : m.has_vnc <;> cases hrdp : m.has_rdp <;>
      simp [hssh, hvnc, hrdp]

/-- Witness for C10 on an instance with `has_vnc = false`. -/
theorem kvm_call_ends_with_vnc_clause_witness :
    (∃ p, ((get_kvm_call cfgW ubuntu_kvm mW stW).command.getD "") =
      p ++ ("-vnc localhost:" ++ toString mW.localhost_vnc_port))
    ∧ ("vnc" ∈ ports_to_map mW ↔ mW.has_vnc = true) :=
  kvm_call_ends_with_vnc_clause cfgW ubuntu_kvm mW stW
    ((get_kvm_call cfgW ubuntu_kvm mW stW).command.getD "") rfl

/-- C3: for an instance in state Launched (with the port allocation in
`get_kvm_call` succeeding): if its PID file does not reference a live
process, `run_machine` spawns the built hypervisor command and writes a
PID file, and the instance ends in state Running; if its PID file already
references a live process, the instance ends in state Failed, no process
is spawned and no PID file is written. -/
theorem run_machine_spawns_or_fails_on_stale_pid (cfg : Config) (b : CallBuilder)
    (process_runs : String → Bool) (m : Machine) (st : AllocState) (cmd : String)
    (hL : m.current_state = VmState.VM_IS_LAUNCHED)
    (hcmd : (get_kvm_call cfg b m st).command = some cmd) :
    (process_runs (get_pid_file cfg m) = false →
      (run_machine cfg b process_runs m st).machine.current_state = VmState.VM_IS_RUNNING
      ∧ (run_machine cfg b process_runs m st).spawned =
          some (cmd, get_report_file cfg m, get_pid_file cfg m)
      ∧ (run_machine cfg b process_runs m st).pid_file_written = true
      ∧ (run_machine cfg b process_runs m st).error = none)
    ∧ (process_runs (get_pid_file cfg m) = true →
      (run_machine cfg b process_runs m st).machine.current_state = VmState.VM_HAS_FAILED
      ∧ (run_machine cfg b process_runs m st).spawned = none
      ∧ (run_machine cfg b process_runs m st).pid_file_written = false
      ∧ (run_machine cfg b process_runs m st).error = none) := by
  simp only [run_machine,
    if_neg (show ¬ m.current_state ≠ VmState.VM_IS_LAUNCHED by simp [hL]), hcmd]
  constructor <;> intro hpr <;> simp [hpr]

/-- Witness for C3: the dead-PID branch spawns and runs, the live-PID
branch fails. -/
theorem run_machine_spawns_or_fails_on_stale_pid_witness :
    ((run_machine cfgW ubuntu_kvm (fun _ => false) mW stW).machine.current_state =
        VmState.VM_IS_RUNNING
      ∧ (run_machine cfgW ubuntu_kvm (fun _ => false) mW stW).pid_file_written = true)
    ∧ ((run_machine cfgW ubuntu_kvm (fun _ => true) mW stW).machine.current_state =
        VmState.VM_HAS_FAILED
      ∧ (run_machine cfgW ubuntu_kvm (fun _ => true) mW stW).spawned = none) := by
  constructor
  · have h := (run_machine_spawns_or_fails_on_stale_pid cfgW ubuntu_kvm (fun _ => false)
      mW stW ((get_kvm_call cfgW ubuntu_kvm mW stW).command.getD "") rfl rfl).1 rfl
    exact ⟨h.1, h.2.2.1⟩
  · have h := (run_machine_spawns_or_fails_on_stale_pid cfgW ubuntu_kvm (fun _ => true)
      mW stW ((get_kvm_call cfgW ubuntu_kvm mW stW).command.getD "") rfl rfl).2 rfl
    exact ⟨h.1, h.2.1⟩

lemma map_ports_loop_services (cfg : Config) :
    ∀ (svcs : List String) (m : Machine) (st : AllocState) (red : String),
      (map_ports_loop cfg svcs m st red).exhausted = false →
      (map_ports_loop cfg svcs m st red).machine.mapped_ports.map Prod.fst =
        m.mapped_ports.map Prod.fst ++ svcs := by
  intro svcs
  induction svcs with
  | nil => intro m st red _; simp [map_ports_loop]
  | cons s rest ih =>
    intro m st red hex
    simp only [map_ports_loop] at hex ⊢
    cases hg : get_next_unmapped_port cfg.first_mapped_port cfg.last_mapped_port
        st.cursor st.occupied with
    | none =>
      rw [hg] at hex
      simp at hex
    | some pc =>
      obtain ⟨p, cursor'⟩ := pc
      rw [hg] at hex
      have hex' : (map_ports_loop cfg rest (map_port m s p) ⟨p :: st.occupied, cursor'⟩
          (red ++ " -redir tcp:" ++ toString p ++ "::" ++ toString (VM_PORTS s) ++ " ")).exhausted
          = false := hex
      have hrec := ih (map_port m s p) ⟨p :: st.occupied, cursor'⟩
        (red ++ " -redir tcp:" ++ toString p ++ "::" ++ toString (VM_PORTS s) ++ " ") hex'
      show List.map Prod.fst ((map_ports_loop cfg rest (map_port m s p)
          ⟨p :: st.occupied, cursor'⟩
          (red ++ " -redir tcp:" ++ toString p ++ "::" ++ toString (VM_PORTS s) ++ " ")).machine.mapped_ports) =
        List.map Prod.fst m.mapped_ports ++ s :: rest
      rw [hrec]
      simp [map_port]

/-- C9: when `run_machine` hits the stale-PID branch, the forwarded-port
allocation for every enabled service has already been performed and
recorded on the instance before the check moves it to Failed; the
mappings are not rolled back, so the Failed instance holds one newly
recorded mapping per enabled service. -/
theorem failed_run_keeps_mapped_ports (cfg : Config) (b : CallBuilder)
    (process_runs : String → Bool) (m : Machine) (st : AllocState)
    (hL : m.current_state = VmState.VM_IS_LAUNCHED)
    (hpr : process_runs (get_pid_file cfg m) = true)
    (hok : (get_kvm_call cfg b m st).command.isSome = true) :
    (run_machine cfg b process_runs m st).machine.current_state = VmState.VM_HAS_FAILED
    ∧ (run_machine cfg b process_runs m st).spawned = none
    ∧ (run_machine cfg b process_runs m st).machine.mapped_ports.map Prod.fst =
        m.mapped_ports.map Prod.fst ++ ports_to_map m := by
  obtain ⟨cmd, hcmd⟩ := Option.isSome_iff_exists.mp hok
  have hex : (map_ports_loop cfg (ports_to_map m) m st "").exhausted = false := by
    by_contra hx
    rw [Bool.not_eq_false] at hx
    simp only [get_kvm_call, hx, if_true] at hcmd
    exact absurd hcmd (by simp)
  have hmach : (get_kvm_call cfg b m st).machine =
      (map_ports_loop cfg (ports_to_map m) m st "").machine := by
    simp [get_kvm_call, hex]
  have hrun : run_machine cfg b process_runs m st =
      ⟨{ (get_kvm_call cfg b m st).machine with current_state := VmState.VM_HAS_FAILED },
        (get_kvm_call cfg b m st).alloc, none, false, none⟩ := by
    simp only [run_machine,
      if_neg (show ¬ m.current_state ≠ VmState.VM_IS_LAUNCHED by simp [hL]), hcmd, hpr,
      if_true]
  rw [hrun]
  refine ⟨rfl, rfl, ?_⟩
  rw [hmach]
  exact map_ports_loop_services cfg (ports_to_map m) m st "" hex

/-- Witness for C9: the stale-PID run of an ssh-enabled instance records
the freshly mapped ssh port and still ends Failed. -/
theorem failed_run_keeps_mapped_ports_witness :
    (run_machine cfgW ubuntu_kvm (fun _ => true) mW stW).machine.current_state =
        VmState.VM_HAS_FAILED
    ∧ (run_machine cfgW ubuntu_kvm (fun _ => true) mW stW).spawned = none
    ∧ (run_machine cfgW ubuntu_kvm (fun _ => true) mW stW).machine.mapped_ports.map
        Prod.fst = mW.mapped_ports.map Prod.fst ++ ports_to_map mW :=
  failed_run_keeps_mapped_ports cfgW ubuntu_kvm (fun _ => true) mW stW rfl rfl rfl

/-- C7 (code-bug evaluation): `remove_machine` on a Trashed instance whose
disk file is absent raises: `os.unlink` raises `OSError`, which the
Python 2 `except IOError` handler does not catch, so the transition
aborts and the record is not removed — against the handler's evident
intent and the claim.  With disk and log files present the happy path
holds: both files removed and the record deleted. -/
theorem remove_machine_missing_disk_raises :
    ((remove_machine cfgW [] mTrashW).error = some VmError.OSErrorRaised
      ∧ (remove_machine cfgW [] mTrashW).record_deleted = false)
    ∧ remove_machine cfgW ["/var/disks/vm3.img", "/var/logs/vm3.log"] mTrashW =
        ⟨[], true, none⟩ := by
  refine ⟨⟨by decide, by decide⟩, by decide⟩

/-- C5 counterexample: two instances in the bulk trigger state; the first
start attempt raises `PortExhaustionError` (single-port range, fully
occupied), which aborts the bulk call, so the second instance — whose own
transition would have succeeded — stays Launched with its transition
never applied. -/
theorem start_machines_failure_aborts_bulk_cex :
    (start_machines cfgTight ubuntu_kvm (fun _ => false) [mW, mPlain] ⟨[6000], none⟩).2.2 =
        some VmError.PortExhaustionError
    ∧ ((start_machines cfgTight ubuntu_kvm (fun _ => false) [mW, mPlain]
        ⟨[6000], none⟩).1.map Machine.current_state) =
        [VmState.VM_IS_LAUNCHED, VmState.VM_IS_LAUNCHED]
    ∧ (run_machine cfgTight ubuntu_kvm (fun _ => false) mPlain ⟨[6000], none⟩).error = none
    ∧ (run_machine cfgTight ubuntu_kvm (fun _ => false) mPlain
        ⟨[6000], none⟩).machine.current_state = VmState.VM_IS_RUNNING := by
  exact ⟨rfl, rfl, rfl, rfl⟩

/-- C5 (amended, the behavior the code has): the bulk loop applies the
transition to the queried instances in order; when one instance's
`run_machine` raises, the instances before it have been transitioned and
the loop aborts: the failing instance and every later one are returned
with their transition not applied (a later bulk call picks them up again,
their state unchanged). -/
theorem start_machines_error_stops_iteration (cfg : Config) (b : CallBuilder)
    (process_runs : String → Bool) (l1 l2 : List Machine) (m : Machine)
    (st st1 : AllocState) (ms1 : List Machine) (e : VmError)
    (h1 : start_machines_go cfg b process_runs l1 st = (ms1, st1, none))
    (h2 : (run_machine cfg b process_runs m st1).error = some e) :
    start_machines_go cfg b process_runs (l1 ++ m :: l2) st =
      (ms1 ++ (run_machine cfg b process_runs m st1).machine :: l2,
       (run_machine cfg b process_runs m st1).alloc, some e) := by
  induction l1 generalizing st ms1 with
  | nil =>
    simp only [start_machines_go, Prod.mk.injEq] at h1
    obtain ⟨h1a, h1b, -⟩ := h1
    subst h1a
    subst h1b
    simp only [List.nil_append, start_machines_go, h2]
  | cons c rest ih =>
    cases hc : (run_machine cfg b process_runs c st).error with
    | some e' =>
      rw [List.cons_append]
      simp only [start_machines_go, hc, Prod.mk.injEq] at h1
      simp at h1
    | none =>
      rw [List.cons_append]
      simp only [start_machines_go, hc] at h1 ⊢
      simp only [Prod.mk.injEq] at h1
      obtain ⟨hms, hst, he⟩ := h1
      have hrest : start_machines_go cfg b process_runs rest
          (run_machine cfg b process_runs c st).alloc =
          ((start_machines_go cfg b process_runs rest
            (run_machine cfg b process_runs c st).alloc).1, st1, none) := by
        rw [← hst, ← he]
      rw [ih _ _ hrest, ← hms]
      simp [List.cons_append]

/-- Witness for C5's amended statement at a concrete bulk call: one
successful start, then a raising one, then an untouched instance. -/
theorem start_machines_error_stops_iteration_witness :
    start_machines_go cfgTight ubuntu_kvm (fun _ => false) ([mPlain] ++ mW :: [mPlain])
        ⟨[6000], none⟩ =
      ([(run_machine cfgTight ubuntu_kvm (fun _ => false) mPlain ⟨[6000], none⟩).machine] ++
        (run_machine cfgTight ubuntu_kvm (fun _ => false) mW ⟨[6000], none⟩).machine :: [mPlain],
       (run_machine cfgTight ubuntu_kvm (fun _ => false) mW ⟨[6000], none⟩).alloc,
       some VmError.PortExhaustionError) :=
  start_machines_error_stops_iteration cfgTight ubuntu_kvm (fun _ => false) [mPlain] [mPlain]
    mW ⟨[6000], none⟩ ⟨[6000], none⟩
    [(run_machine cfgTight ubuntu_kvm (fun _ => false) mPlain ⟨[6000], none⟩).machine]
    VmError.PortExhaustionError rfl rfl
